import Mathlib

/-!
Verification of the raindrip HTTP transport/retry engine and service façade
(`src/raindrip/api.py`, `src/raindrip/models.py`) via a shallow embedding.

Conventions of the embedding:
* JSON bodies are `JsonVal`; a decoded body is `Except String JsonVal`
  (`.error msg` models a `json.JSONDecodeError` whose message is `msg`).
* The server's behaviour across successive HTTP attempts of one logical call
  is a function `Nat → AttemptResult`: attempt `n` either yields a response
  or raises a transport-level (network) exception.
* The `Retry-After` header is modelled already parsed (`Option Nat`), as the
  code does `int(response.headers.get("Retry-After", 10))`.
* Sleeping is modelled by accumulating the slept seconds in the result.
* A Python outcome is `Outcome`: a returned value, a raised classified
  `RaindropError`, or any other (unclassified) exception escaping the call.
-/

namespace Raindrip

/-- A JSON value, as decoded by `response.json()`. -/
inductive JsonVal where
  | null
  | bool (b : Bool)
  | num (n : Int)
  | str (s : String)
  | arr (elems : List JsonVal)
  | obj (fields : List (String × JsonVal))

/-- `dict` lookup: the value bound to key `k`, if present. -/
def jsonLookup (fields : List (String × JsonVal)) (k : String) : Option JsonVal :=
  (fields.find? (fun p => p.1 == k)).map (fun p => p.2)

/-- Python `data.get(k, dflt)`: on a non-dict it raises `AttributeError`
(modelled as `.error`). -/
def pyDictGet (v : JsonVal) (k : String) (dflt : JsonVal) : Except String JsonVal :=
  match v with
  | .obj fields => .ok ((jsonLookup fields k).getD dflt)
  | _ => .error "AttributeError"

mutual

/-- Python `repr` of a JSON-decoded value (used by `str` on containers). -/
def JsonVal.pyRepr : JsonVal → String
  | .null => "None"
  | .bool true => "True"
  | .bool false => "False"
  | .num n => toString n
  | .str s => "\x27" ++ s ++ "\x27"
  | .arr xs => "[" ++ String.intercalate ", " (pyReprList xs) ++ "]"
  | .obj fs => "\x7b" ++ String.intercalate ", " (pyReprFields fs) ++ "\x7d"

/-- `repr` of each element of a JSON array. -/
def pyReprList : List JsonVal → List String
  | [] => []
  | x :: xs => x.pyRepr :: pyReprList xs

/-- `repr` of each key-value pair of a JSON dict. -/
def pyReprFields : List (String × JsonVal) → List String
  | [] => []
  | (k, v) :: fs => ("\x27" ++ k ++ "\x27: " ++ v.pyRepr) :: pyReprFields fs

end

/-- Python `str` of a JSON-decoded value (an f-string interpolation). -/
def JsonVal.pyStr : JsonVal → String
  | .str s => s
  | v => v.pyRepr

/-- Substring test on lists of characters: Python's `needle in hay`. -/
def listHasSub (needle hay : List Char) : Bool :=
  (List.range (hay.length + 1)).any (fun i => needle.isPrefixOf (hay.drop i))

/-- The name filter of the dry-run log: `"token" in k.lower()`. -/
def containsToken (k : String) : Bool :=
  listHasSub "token".data (k.data.map Char.toLower)

/-- An HTTP response as the transport sees it. -/
structure HttpResponse where
  status : Nat
  retryAfter : Option Nat := none
  text : String := ""
  json : Except String JsonVal := .error "Expecting value"

/-- One HTTP attempt either yields a response or raises an
`httpx.RequestError` (connectivity, timeout, DNS, ...). -/
inductive AttemptResult where
  | response (r : HttpResponse)
  | networkError (msg : String)

/-- The classified error taxonomy of `api.py`: `RaindropError` and its two
subclasses.  `RateLimitError` fixes status 429, `ServerError` fixes 502. -/
inductive ApiError where
  | raindropError (message : String) (statusCode : Nat)
  | rateLimitError (retryAfter : Nat)
  | serverError (message : String)

/-- The `status_code` attribute each constructor installs. -/
def ApiError.statusCode : ApiError → Nat
  | .raindropError _ c => c
  | .rateLimitError _ => 429
  | .serverError _ => 502

/-- The message each constructor installs. -/
def ApiError.message : ApiError → String
  | .raindropError m _ => m
  | .rateLimitError ra => "Rate limit exceeded. Retry after " ++ toString ra ++ "s"
  | .serverError m => m

/-- How a Python call can end: a returned value, a raised classified
`RaindropError`, or some other exception escaping unclassified. -/
inductive Outcome where
  | value (v : JsonVal)
  | classified (e : ApiError)
  | unclassified (desc : String)

/-- `true` unless the outcome is an unclassified exception. -/
def Outcome.classifiedOrValue : Outcome → Bool
  | .unclassified _ => false
  | _ => true

/-- Result of running `_request`: its outcome, the number of HTTP attempts
made, and the total seconds slept. -/
structure LoopResult where
  outcome : Outcome
  attempts : Nat
  totalSleep : Nat

/-- The error text extracted for a 4xx response: the body's `errorMessage`
field when the body parses as a JSON dict and the field is present,
otherwise the raw response text (`_request`, lines 100-107). -/
def errorDetail (r : HttpResponse) : String :=
  match r.json with
  | .ok (.obj fields) =>
      match jsonLookup fields "errorMessage" with
      | some v => v.pyStr
      | none => r.text
  | _ => r.text

/-- The retry loop of `_request` (api.py lines 71-116).  `fuel` is the
mutable `retries` countdown read at the top of the `while`; `attempts` and
`slept` accumulate attempts made and seconds slept so far.  Every
non-terminal iteration decrements `retries`, so the loop is structural
recursion on `fuel`; falling out of the loop raises the catch-all
"Maximum retries exceeded" error with status 504. -/
def requestLoop (server : Nat → AttemptResult) :
    Nat → Nat → Nat → LoopResult
  | 0, attempts, slept =>
      ⟨.classified (.raindropError "Maximum retries exceeded" 504), attempts, slept⟩
  | fuel + 1, attempts, slept =>
      match server attempts with
      | .networkError msg =>
          ⟨.classified (.raindropError ("Network Error: " ++ msg) 503),
            attempts + 1, slept⟩
      | .response r =>
          if r.status = 429 then
            requestLoop server fuel (attempts + 1) (slept + r.retryAfter.getD 10)
          else if 500 ≤ r.status then
            if fuel = 0 then
              ⟨.classified (.serverError
                  ("Raindrop.io Server Error: " ++ toString r.status)),
                attempts + 1, slept⟩
            else
              requestLoop server fuel (attempts + 1) (slept + 2)
          else if 200 ≤ r.status ∧ r.status < 300 then
            match r.json with
            | .ok j => ⟨.value j, attempts + 1, slept⟩
            | .error e =>
                ⟨.classified (.raindropError
                    ("Invalid JSON response from API: " ++ e) 502),
                  attempts + 1, slept⟩
          else
            ⟨.classified (.raindropError
                ("API Error " ++ toString r.status ++ ": " ++ errorDetail r)
                r.status),
              attempts + 1, slept⟩

/-- `RaindropAPI.MAX_RETRIES`. -/
def MAX_RETRIES : Nat := 3

/-- Does the dry-run short circuit trigger for this method? -/
def isMutating (method : String) : Bool :=
  method == "POST" || method == "PUT" || method == "DELETE"

/-- The synthetic success envelope of a dry run. -/
def dryRunEnvelope (method : String) : JsonVal :=
  if method == "DELETE" then .obj [("result", .bool true)]
  else
    .obj [("result", .bool true),
          ("item", .obj [("_id", .num 0), ("title", .str "Dry Run Item"),
                         ("link", .str "http://dryrun.com")]),
          ("items", .arr [])]

/-- The payload as logged in dry-run mode: fields whose name contains
"token" (case-insensitively) are dropped (api.py line 64). -/
def filteredPayload (payload : List (String × JsonVal)) :
    List (String × JsonVal) :=
  payload.filter (fun kv => !(containsToken kv.1))

/-- The field names that can appear in the payload part of the dry-run log
(the keys of `filtered_payload`; when the payload is empty nothing is
logged at all, and the list is empty too). -/
def dryRunLoggedFields (payload : List (String × JsonVal)) : List String :=
  (filteredPayload payload).map (fun kv => kv.1)

/-- `_request` itself: the dry-run short circuit (api.py lines 58-69),
otherwise the retry loop starting from the full budget.  `attempts = 0`
of the dry-run result records that no network call is made.  The payload
only feeds the dry-run log (`dryRunLoggedFields`). -/
def request (dryRun : Bool) (method : String)
    (payload : List (String × JsonVal))
    (server : Nat → AttemptResult) (maxRetries : Nat) : LoopResult :=
  if dryRun && isMutating method then
    ⟨.value (dryRunEnvelope method), 0, 0⟩
  else
    requestLoop server maxRetries 0 0

/-- The single HTTP call of `check_wayback`: a response, or any exception
raised while performing it (all are caught by the bare `except`). -/
inductive WaybackCall where
  | response (r : HttpResponse)
  | exception (msg : String)

/-- `check_wayback` (api.py lines 118-132).  The Python function returns the
value of `archived_snapshots.closest.url` on a 200 response whose body
decodes to a dict with that nested path, and `None` in every other case
(missing keys default to `\x7b\x7d`, any exception is swallowed).  Python's
`None` is modelled by `JsonVal.null`. -/
def check_wayback : WaybackCall → JsonVal
  | .exception _ => .null
  | .response r =>
      if r.status = 200 then
        match r.json with
        | .error _ => .null
        | .ok d =>
            match d with
            | .obj fields =>
                match (jsonLookup fields "archived_snapshots").getD (.obj []) with
                | .obj sf =>
                    match (jsonLookup sf "closest").getD (.obj []) with
                    | .obj cf => (jsonLookup cf "url").getD .null
                    | _ => .null
                | _ => .null
            | _ => .null
      else .null

/-- The `Raindrop` record of models.py (lines 38-53), with `_id` and `link`
required and every other field defaulted. -/
structure Raindrop where
  id : Int
  link : String
  title : String
  excerpt : String
  note : String
  tags : List String
  cover : Option String
  created : Option String
  lastUpdate : Option String
  type : Option String
  important : Option Bool
  collection_id : Int
  domain : Option String
  media : Option (List JsonVal)
  broken : Option Bool

/-- Validate an optional string field: absent keys take the default,
an explicit JSON null becomes `none`, and a non-string value is a
`ValidationError`. -/
def vOptStr (v : Option JsonVal) (dflt : Option String) :
    Except String (Option String) :=
  match v with
  | none => .ok dflt
  | some .null => .ok none
  | some (.str s) => .ok (some s)
  | some _ => .error "ValidationError: string expected"

/-- Validate an optional boolean field. -/
def vOptBool (v : Option JsonVal) (dflt : Option Bool) :
    Except String (Option Bool) :=
  match v with
  | none => .ok dflt
  | some .null => .ok none
  | some (.bool b) => .ok (some b)
  | some _ => .error "ValidationError: bool expected"

/-- Validate a string field with a plain default. -/
def vStrD (v : Option JsonVal) (dflt : String) : Except String String :=
  match v with
  | none => .ok dflt
  | some (.str s) => .ok s
  | some _ => .error "ValidationError: string expected"

/-- Validate a list-of-strings field with a plain default. -/
def vStrListD (v : Option JsonVal) (dflt : List String) :
    Except String (List String) :=
  match v with
  | none => .ok dflt
  | some (.arr xs) =>
      xs.mapM (fun x => match x with
        | .str s => Except.ok s
        | _ => Except.error "ValidationError: string expected")
  | some _ => .error "ValidationError: list expected"

/-- Validate `media : Optional[List[dict]]`. -/
def vOptDictList (v : Option JsonVal) :
    Except String (Option (List JsonVal)) :=
  match v with
  | none => .ok none
  | some .null => .ok none
  | some (.arr xs) =>
      if xs.all (fun x => match x with | .obj _ => true | _ => false) then
        .ok (some xs)
      else .error "ValidationError: dict expected"
  | some _ => .error "ValidationError: list expected"

/-- `Raindrop.model_validate`: requires an `_id` integer and a `link`
string; every other field falls back to its declared default.  A failure
is a `pydantic.ValidationError`, which `_request`'s callers do not catch. -/
def Raindrop.model_validate (v : JsonVal) : Except String Raindrop :=
  match v with
  | .obj fields =>
      match jsonLookup fields "_id", jsonLookup fields "link" with
      | some (.num i), some (.str l) => do
          let title ← vStrD (jsonLookup fields "title") ""
          let excerpt ← vStrD (jsonLookup fields "excerpt") ""
          let note ← vStrD (jsonLookup fields "note") ""
          let tags ← vStrListD (jsonLookup fields "tags") []
          let cover ← vOptStr (jsonLookup fields "cover") none
          let created ← vOptStr (jsonLookup fields "created") none
          let lastUpdate ← vOptStr (jsonLookup fields "lastUpdate") none
          let type ← vOptStr (jsonLookup fields "type") (some "link")
          let important ← vOptBool (jsonLookup fields "important") (some false)
          let cid ← match jsonLookup fields "collectionId" with
            | none => Except.ok (-1 : Int)
            | some (.num n) => Except.ok n
            | some _ => Except.error "ValidationError: int expected"
          let domain ← vOptStr (jsonLookup fields "domain") none
          let media ← vOptDictList (jsonLookup fields "media")
          let broken ← vOptBool (jsonLookup fields "broken") (some false)
          return ⟨i, l, title, excerpt, note, tags, cover, created, lastUpdate,
                  type, important, cid, domain, media, broken⟩
      | _, _ => .error "ValidationError: _id and link required"
  | _ => .error "ValidationError: dict expected"

/-- The pagination loop of `search` (api.py lines 257-278), one level above
the transport: `server page` is the envelope `_request` returned for that
page.  Returns the accumulated validated items and the number of page
requests made.  `fuel` bounds the unbounded `while True`; exhausting it is
reported as an error so that no result is fabricated for a run the Python
loop would still be executing. -/
def searchLoop (server : Nat → JsonVal) :
    Nat → Nat → List Raindrop → Nat → Except String (List Raindrop × Nat)
  | 0, _, _, _ => .error "fuel exhausted"
  | fuel + 1, page, acc, reqs =>
      match pyDictGet (server page) "items" (.arr []) with
      | .error e => .error e
      | .ok (.arr xs) =>
          if xs.isEmpty then .ok (acc, reqs + 1)
          else
            match xs.mapM Raindrop.model_validate with
            | .error e => .error e
            | .ok rs =>
                if xs.length < 50 then .ok (acc ++ rs, reqs + 1)
                else searchLoop server fuel (page + 1) (acc ++ rs) (reqs + 1)
      | .ok _ => .error "TypeError: items is not a list"

/-- `search`: start at page 0 with nothing accumulated. -/
def search (server : Nat → JsonVal) (fuel : Nat) :
    Except String (List Raindrop × Nat) :=
  searchLoop server fuel 0 [] 0

/-- The `RaindropUpdate` record of models.py (lines 56-63): every field
optional and defaulted to `None`. -/
structure RaindropUpdate where
  link : Option String := none
  title : Option String := none
  excerpt : Option String := none
  note : Option String := none
  tags : Option (List String) := none
  collectionId : Option Int := none
  collection : Option (List (String × JsonVal)) := none

/-- `update.model_dump(exclude_none=True)`: the outgoing JSON payload of
`update_raindrop` (api.py line 306) — fields in declaration order, each
included only when set. -/
def RaindropUpdate.model_dump_exclude_none (u : RaindropUpdate) :
    List (String × JsonVal) :=
  (match u.link with | some s => [("link", JsonVal.str s)] | none => []) ++
  (match u.title with | some s => [("title", JsonVal.str s)] | none => []) ++
  (match u.excerpt with | some s => [("excerpt", JsonVal.str s)] | none => []) ++
  (match u.note with | some s => [("note", JsonVal.str s)] | none => []) ++
  (match u.tags with
    | some ts => [("tags", JsonVal.arr (ts.map JsonVal.str))] | none => []) ++
  (match u.collectionId with
    | some n => [("collectionId", JsonVal.num n)] | none => []) ++
  (match u.collection with
    | some fs => [("collection", JsonVal.obj fs)] | none => [])

/-- Is this `RaindropUpdate` field name one the caller has set? -/
def RaindropUpdate.fieldSet (u : RaindropUpdate) (k : String) : Prop :=
  (k = "link" ∧ u.link ≠ none) ∨ (k = "title" ∧ u.title ≠ none) ∨
  (k = "excerpt" ∧ u.excerpt ≠ none) ∨ (k = "note" ∧ u.note ≠ none) ∨
  (k = "tags" ∧ u.tags ≠ none) ∨ (k = "collectionId" ∧ u.collectionId ≠ none) ∨
  (k = "collection" ∧ u.collection ≠ none)

/-- The `Collection` record of models.py (lines 5-20), reduced to the two
required fields (`_id`, `title`); the optional fields play no part in any
claim and validation failure on them is folded into the same
`ValidationError` outcome. -/
structure Collection where
  id : Int
  title : String

/-- `Collection.model_validate` on the two required fields. -/
def Collection.model_validate (v : JsonVal) : Except String Collection :=
  match v with
  | .obj fields =>
      match jsonLookup fields "_id", jsonLookup fields "title" with
      | some (.num i), some (.str t) => .ok ⟨i, t⟩
      | _, _ => .error "ValidationError: _id and title required"
  | _ => .error "ValidationError: dict expected"

/-- How `upload_collection_cover` can end. -/
inductive UploadOutcome where
  | collection (c : Collection)
  | classified (e : ApiError)
  | unclassified (desc : String)

/-- `upload_collection_cover` (api.py lines 201-218).  It bypasses
`_request`: after the dry-run short circuit it performs one multipart PUT
directly on the client, calls `raise_for_status()` and decodes the body, so
an `httpx.RequestError`, an `httpx.HTTPStatusError` (any non-2xx status), a
`json.JSONDecodeError` or a `pydantic.ValidationError` all escape without
classification. -/
def upload_collection_cover (dryRun : Bool) (collection_id : Int)
    (call : AttemptResult) : UploadOutcome :=
  if dryRun then
    .collection ⟨collection_id, "Dry Run Icon"⟩
  else
    match call with
    | .networkError msg => .unclassified ("httpx.RequestError: " ++ msg)
    | .response r =>
        if 200 ≤ r.status ∧ r.status < 300 then
          match r.json with
          | .error e => .unclassified ("json.JSONDecodeError: " ++ e)
          | .ok d =>
              match pyDictGet d "item" (.obj []) with
              | .error e => .unclassified e
              | .ok item =>
                  match Collection.model_validate item with
                  | .ok c => .collection c
                  | .error e => .unclassified e
        else
          .unclassified ("httpx.HTTPStatusError: status " ++ toString r.status)

/-- The envelope projection of `delete_collection` (api.py line 177):
`data.get("result", False)`. -/
def delete_collection_result (data : JsonVal) : Except String JsonVal :=
  pyDictGet data "result" (.bool false)

/-- The envelope projection of `delete_collections` (api.py line 181):
`data.get("result", True)`. -/
def delete_collections_result (data : JsonVal) : Except String JsonVal :=
  pyDictGet data "result" (.bool true)

/-! Concrete inputs used by witnesses and counterexamples. -/

/-- A server answering every attempt with a bare HTTP 500. -/
def server500 : Nat → AttemptResult :=
  fun _ => .response ⟨500, none, "", .error "Expecting value"⟩

/-- A server answering every attempt with HTTP 429, `Retry-After: 1`. -/
def server429 : Nat → AttemptResult :=
  fun _ => .response ⟨429, some 1, "", .error "Expecting value"⟩

/-- A 429 with `Retry-After: 7` on the first attempt, then a 200 whose body
decodes to a user envelope. -/
def server429then200 : Nat → AttemptResult := fun n =>
  if n = 0 then .response ⟨429, some 7, "", .error "Expecting value"⟩
  else .response ⟨200, none, "", .ok (.obj [("user", .obj [])])⟩

/-- The 404 response of the spec's example, body
`\x7b"errorMessage": "Not Found"\x7d`. -/
def resp404 : HttpResponse :=
  ⟨404, none, "\x7b\x22errorMessage\x22: \x22Not Found\x22\x7d",
    .ok (.obj [("errorMessage", .str "Not Found")])⟩

/-- A server answering every attempt with `resp404`. -/
def server404 : Nat → AttemptResult := fun _ => .response resp404

/-- The payload of the C6 witness: an `apiToken` next to an ordinary field. -/
def payloadWithToken : List (String × JsonVal) :=
  [("apiToken", .str "secret"), ("title", .str "My Bookmark")]

/-- A server that must never be consulted in a dry run. -/
def serverUnused : Nat → AttemptResult := fun _ => .networkError "unused"

/-- A valid raindrop item as the server returns it. -/
def sampleItem : JsonVal := .obj [("_id", .num 1), ("link", .str "http://a")]

/-- The validated form of `sampleItem`. -/
def sampleRaindrop : Raindrop :=
  ⟨1, "http://a", "", "", "", [], none, none, none, some "link", some false, -1,
    none, none, some false⟩

/-- A server returning pages of sizes 50, 50, 3. -/
def c7server : Nat → JsonVal := fun page =>
  if page = 0 then .obj [("items", .arr (List.replicate 50 sampleItem))]
  else if page = 1 then .obj [("items", .arr (List.replicate 50 sampleItem))]
  else .obj [("items", .arr (List.replicate 3 sampleItem))]

/-- The spec-side success condition of the wayback lookup: a 200 response
whose body decodes to a dict in which `archived_snapshots` (defaulting to
an empty dict) is a dict, `closest` likewise, and whose `url` entry
(defaulting to Python `None`) is `v`. -/
def returnsSnapshot (c : WaybackCall) (v : JsonVal) : Prop :=
  ∃ r fields sf cf,
    c = .response r ∧ r.status = 200 ∧ r.json = .ok (.obj fields) ∧
    (jsonLookup fields "archived_snapshots").getD (.obj []) = .obj sf ∧
    (jsonLookup sf "closest").getD (.obj []) = .obj cf ∧
    (jsonLookup cf "url").getD .null = v

/-- The wayback response of the witness: a 200 with a snapshot. -/
def waybackHit : WaybackCall :=
  .response ⟨200, none, "",
    .ok (.obj [("archived_snapshots",
      .obj [("closest",
        .obj [("url", .str "http://archive.org/web/2023/http://a")])])])⟩

/-- The wayback response of the witness's second half: an HTTP 500. -/
def wayback500 : WaybackCall :=
  .response ⟨500, none, "", .error "Expecting value"⟩

/-! Helper lemmas about the retry loop. -/

/-- Against a server that answers every attempt with HTTP 500, the loop
makes exactly as many further attempts as the remaining budget, sleeps a
fixed 2 seconds between consecutive attempts, and ends in a `ServerError`
whose message carries the 500. -/
theorem requestLoop_all500 (server : Nat → AttemptResult)
    (h : ∀ n, ∃ r, server n = .response r ∧ r.status = 500) :
    ∀ b a s, 0 < b →
      requestLoop server b a s =
        ⟨.classified (.serverError "Raindrop.io Server Error: 500"),
          a + b, s + 2 * (b - 1)⟩ := by
  intro b
  induction b with
  | zero => intro a s h0; omega
  | succ n ih =>
    intro a s _
    obtain ⟨r, hr, hs⟩ := h a
    by_cases hn : n = 0
    · subst hn
      simp only [requestLoop, hr, hs]
      norm_num
      rfl
    · simp only [requestLoop, hr, hs]
      norm_num [hn]
      rw [ih (a + 1) (s + 2) (Nat.pos_of_ne_zero hn)]
      simp only [LoopResult.mk.injEq]
      refine ⟨by trivial, by omega, by omega⟩

/-- Against a server that answers every attempt with HTTP 429, the loop
uses up the whole remaining budget and ends in the generic
"Maximum retries exceeded" error with status 504. -/
theorem requestLoop_all429 (server : Nat → AttemptResult)
    (h : ∀ n, ∃ r, server n = .response r ∧ r.status = 429) :
    ∀ b a s, ∃ slept,
      requestLoop server b a s =
        ⟨.classified (.raindropError "Maximum retries exceeded" 504),
          a + b, slept⟩ := by
  intro b
  induction b with
  | zero => intro a s; exact ⟨s, rfl⟩
  | succ n ih =>
    intro a s
    obtain ⟨r, hr, hs⟩ := h a
    obtain ⟨slept, hsl⟩ := ih (a + 1) (s + r.retryAfter.getD 10)
    refine ⟨slept, ?_⟩
    simp only [requestLoop, hr, hs]
    norm_num
    rw [hsl]
    simp only [LoopResult.mk.injEq]
    refine ⟨by trivial, by omega, by trivial⟩

/-- Every branch of the retry loop returns the decoded envelope or raises a
classified `RaindropError`: no unclassified exception escapes. -/
theorem requestLoop_classifiedOrValue (server : Nat → AttemptResult) :
    ∀ b a s, (requestLoop server b a s).outcome.classifiedOrValue = true := by
  intro b
  induction b with
  | zero => intro a s; rfl
  | succ n ih =>
    intro a s
    simp only [requestLoop]
    cases hsv : server a with
    | networkError msg => rfl
    | response r =>
      by_cases h429 : r.status = 429
      · simp only [h429, if_pos rfl]
        exact ih _ _
      · simp only [if_neg h429]
        by_cases h5 : 500 ≤ r.status
        · simp only [if_pos h5]
          by_cases hn : n = 0
          · simp only [hn, if_pos rfl]; rfl
          · simp only [if_neg hn]; exact ih _ _
        · simp only [if_neg h5]
          by_cases h2 : 200 ≤ r.status ∧ r.status < 300
          · simp only [if_pos h2]
            cases r.json with
            | ok j => rfl
            | error e => rfl
          · simp only [if_neg h2]; rfl

/-- A terminal 4xx (other than 429) ends the loop on the spot: one more
attempt, no sleep, and a `RaindropError` carrying the upstream status code
and the extracted error detail. -/
theorem requestLoop_client4xx (server : Nat → AttemptResult)
    (r : HttpResponse) (b a s : Nat)
    (hr : server a = .response r)
    (hlo : 400 ≤ r.status) (hhi : r.status < 500) (h429 : r.status ≠ 429)
    (hb : 0 < b) :
    requestLoop server b a s =
      ⟨.classified (.raindropError
          ("API Error " ++ toString r.status ++ ": " ++ errorDetail r)
          r.status),
        a + 1, s⟩ := by
  obtain ⟨n, rfl⟩ : ∃ n, b = n + 1 := ⟨b - 1, by omega⟩
  simp only [requestLoop, hr]
  rw [if_neg h429, if_neg (show ¬ 500 ≤ r.status by omega),
    if_neg (show ¬ (200 ≤ r.status ∧ r.status < 300) by omega)]

/-- `List.mapM` into `Except` preserves length on success. -/
theorem mapM_except_length {α β : Type} (f : α → Except String β) :
    ∀ (l : List α) (rs : List β), l.mapM f = .ok rs → rs.length = l.length := by
  intro l
  induction l with
  | nil =>
    intro rs h
    simp only [List.mapM_nil, pure, Except.pure] at h
    cases h
    rfl
  | cons x xs ih =>
    intro rs h
    rw [List.mapM_cons] at h
    cases hx : f x with
    | error e => rw [hx] at h; simp [Bind.bind, Except.bind] at h
    | ok y =>
      rw [hx] at h
      cases hxs : xs.mapM f with
      | error e =>
        rw [hxs] at h
        simp [Bind.bind, Except.bind, pure, Except.pure] at h
      | ok ys =>
        rw [hxs] at h
        simp only [Bind.bind, Except.bind, pure, Except.pure] at h
        cases h
        simp [ih ys hxs]


/-! The claims. -/

/-- C1: for every call whose attempts all receive HTTP 500 responses, the
transport makes exactly as many HTTP attempts as the retry budget (3 by
default), sleeping a fixed 2 seconds between consecutive attempts (so
`2 * (b - 1)` seconds in total), and raises the `ServerError`; a budget of
1 makes exactly 1 attempt and raises with no sleep. -/
theorem c1_all_500_exhausts_budget :
    MAX_RETRIES = 3 ∧
    ∀ (server : Nat → AttemptResult),
      (∀ n, ∃ r, server n = AttemptResult.response r ∧ r.status = 500) →
      ∀ b, 0 < b →
        requestLoop server b 0 0 =
          ⟨.classified (.serverError "Raindrop.io Server Error: 500"),
            b, 2 * (b - 1)⟩ := by
  refine ⟨rfl, ?_⟩
  intro server h b hb
  have h2 := requestLoop_all500 server h b 0 0 hb
  simpa using h2

/-- Witness for C1 at the all-500 server, with budgets 3 and 1. -/
theorem c1_all_500_exhausts_budget_witness :
    requestLoop server500 3 0 0 =
      ⟨.classified (.serverError "Raindrop.io Server Error: 500"),
        3, 2 * (3 - 1)⟩ ∧
    requestLoop server500 1 0 0 =
      ⟨.classified (.serverError "Raindrop.io Server Error: 500"),
        1, 2 * (1 - 1)⟩ :=
  ⟨c1_all_500_exhausts_budget.2 server500 (fun _ => ⟨_, rfl, rfl⟩) 3 (by norm_num),
   c1_all_500_exhausts_budget.2 server500 (fun _ => ⟨_, rfl, rfl⟩) 1 (by norm_num)⟩

/-- C2: a 429 decrements the budget, sleeps for the `Retry-After` value
(10 when the header is absent) and retries, so a 429 followed by a 200
yields exactly 2 attempts, the parsed payload, and total delay equal to the
`Retry-After` value; and consecutive 429s through the whole budget end in
the generic "Maximum retries exceeded" error with status 504. -/
theorem c2_rate_limit_retry_then_success :
    (∀ (server : Nat → AttemptResult) (r0 r1 : HttpResponse) (j : JsonVal)
        (b : Nat),
      server 0 = .response r0 → r0.status = 429 →
      server 1 = .response r1 → r1.status = 200 → r1.json = .ok j →
      2 ≤ b →
      requestLoop server b 0 0 = ⟨.value j, 2, r0.retryAfter.getD 10⟩) ∧
    (∀ (server : Nat → AttemptResult),
      (∀ n, ∃ r, server n = AttemptResult.response r ∧ r.status = 429) →
      ∀ b, ∃ slept,
        requestLoop server b 0 0 =
          ⟨.classified (.raindropError "Maximum retries exceeded" 504),
            b, slept⟩) := by
  constructor
  · intro server r0 r1 j b h0 h0s h1 h1s h1j hb
    obtain ⟨k, rfl⟩ : ∃ k, b = k + 2 := ⟨b - 2, by omega⟩
    simp only [requestLoop, h0, h0s]
    norm_num
    simp only [requestLoop, h1, h1s, h1j]
    norm_num
  · intro server h b
    obtain ⟨slept, hsl⟩ := requestLoop_all429 server h b 0 0
    exact ⟨slept, by simpa using hsl⟩

/-- Witness for C2: `Retry-After: 7` then success, and three straight 429s. -/
theorem c2_rate_limit_retry_then_success_witness :
    requestLoop server429then200 3 0 0 =
      ⟨.value (.obj [("user", .obj [])]), 2, (some 7).getD 10⟩ ∧
    ∃ slept,
      requestLoop server429 3 0 0 =
        ⟨.classified (.raindropError "Maximum retries exceeded" 504),
          3, slept⟩ :=
  ⟨c2_rate_limit_retry_then_success.1 server429then200 _ _ _ 3 rfl rfl rfl rfl rfl
      (by norm_num),
   c2_rate_limit_retry_then_success.2 server429 (fun _ => ⟨_, rfl, rfl⟩) 3⟩

/-- C3 counterexample: when the budget is exhausted by 500s, the raised
`ServerError`'s numeric `status_code` is the constructor's fixed 502 — not
the upstream 500, and not distinct from the 502 used for invalid-JSON
responses. -/
theorem c3_server_error_status_code_counterexample :
    (requestLoop server500 3 0 0).outcome =
      .classified (.serverError "Raindrop.io Server Error: 500") ∧
    ApiError.statusCode (.serverError "Raindrop.io Server Error: 500") = 502 ∧
    ApiError.statusCode (.serverError "Raindrop.io Server Error: 500") ≠ 500 ∧
    ApiError.statusCode
      (.raindropError "Invalid JSON response from API: Expecting value" 502) =
      502 := by
  exact ⟨rfl, rfl, by decide, rfl⟩

/-- C3 (amended): when the budget is exhausted by 500s, the raised error is
a `ServerError` whose message text carries the upstream status code, but
whose numeric `status_code` is the fixed 502 — the same status
`RaindropError` uses for invalid JSON on a successful response. -/
theorem c3_server_error_carries_status_in_message :
    ∀ (server : Nat → AttemptResult),
      (∀ n, ∃ r, server n = AttemptResult.response r ∧ r.status = 500) →
      ∀ b, 0 < b →
        ∃ e, (requestLoop server b 0 0).outcome = .classified e ∧
          e.message = "Raindrop.io Server Error: 500" ∧
          e.statusCode = 502 := by
  intro server h b hb
  have h2 := requestLoop_all500 server h b 0 0 hb
  exact ⟨.serverError "Raindrop.io Server Error: 500", by rw [h2], rfl, rfl⟩

/-- Witness for the amended C3 at the all-500 server with the default
budget. -/
theorem c3_server_error_carries_status_in_message_witness :
    ∃ e, (requestLoop server500 3 0 0).outcome = Outcome.classified e ∧
      e.message = "Raindrop.io Server Error: 500" ∧
      e.statusCode = 502 :=
  c3_server_error_carries_status_in_message server500 (fun _ => ⟨_, rfl, rfl⟩) 3
    (by norm_num)

/-- C4: a 4xx other than 429 is never retried — one attempt, no sleep — and
raises a `RaindropError` carrying the upstream status code, with message
text from the body's `errorMessage` field when the body parses as a JSON
dict carrying that field, and from the raw response text when parsing
fails; the spec's 404 example yields status 404 and a message containing
"Not Found". -/
theorem c4_client_error_single_attempt :
    (∀ (server : Nat → AttemptResult) (r : HttpResponse) (b : Nat),
      server 0 = .response r →
      400 ≤ r.status → r.status < 500 → r.status ≠ 429 → 0 < b →
      requestLoop server b 0 0 =
        ⟨.classified (.raindropError
            ("API Error " ++ toString r.status ++ ": " ++ errorDetail r)
            r.status),
          1, 0⟩) ∧
    (∀ (st : Nat) (hdr : Option Nat) (t m : String)
        (fields : List (String × JsonVal)),
      jsonLookup fields "errorMessage" = some (.str m) →
      errorDetail ⟨st, hdr, t, .ok (.obj fields)⟩ = m) ∧
    (∀ (st : Nat) (hdr : Option Nat) (t e : String),
      errorDetail ⟨st, hdr, t, .error e⟩ = t) ∧
    requestLoop server404 3 0 0 =
      ⟨.classified (.raindropError "API Error 404: Not Found" 404), 1, 0⟩ ∧
    ∃ pre post, "API Error 404: Not Found" = pre ++ "Not Found" ++ post := by
  refine ⟨?_, ?_, ?_, by rfl, "API Error 404: ", "", by rfl⟩
  · intro server r b hr hlo hhi h429 hb
    have h2 := requestLoop_client4xx server r b 0 0 hr hlo hhi h429 hb
    simpa using h2
  · intro st hdr t m fields h
    simp [errorDetail, h, JsonVal.pyStr]
  · intro st hdr t e
    simp [errorDetail]

/-- Witness for C4 at the 404 server with the default budget. -/
theorem c4_client_error_single_attempt_witness :
    requestLoop server404 3 0 0 =
      ⟨.classified (.raindropError
          ("API Error " ++ toString resp404.status ++ ": " ++ errorDetail resp404)
          resp404.status),
        1, 0⟩ ∧
    errorDetail resp404 = "Not Found" :=
  ⟨c4_client_error_single_attempt.1 server404 resp404 3 rfl (by norm_num [resp404])
      (by norm_num [resp404]) (by norm_num [resp404]) (by norm_num),
   rfl⟩

/-- C5 counterexample: `upload_collection_cover` bypasses `_request`; on a
404 it raises a raw `httpx.HTTPStatusError` — an outcome that is neither a
decoded envelope nor a classified error. -/
theorem c5_upload_cover_unclassified_counterexample :
    upload_collection_cover false 7
        (.response ⟨404, none, "", .error "Expecting value"⟩) =
      .unclassified "httpx.HTTPStatusError: status 404" := by
  rfl

/-- C5 (amended): every call routed through `_request` either returns the
decoded envelope or raises a classified `RaindropError` — no unclassified
exception escapes the transport (with `Retry-After` modelled as an already
parsed integer); the multipart cover upload is the exception, as it
bypasses `_request` and can surface raw transport exceptions. -/
theorem c5_request_never_unclassified :
    ∀ (dryRun : Bool) (method : String)
      (payload : List (String × JsonVal))
      (server : Nat → AttemptResult) (maxRetries : Nat),
      (request dryRun method payload server maxRetries).outcome.classifiedOrValue
        = true := by
  intro dryRun method payload server maxRetries
  unfold request
  split
  · rfl
  · exact requestLoop_classifiedOrValue server maxRetries 0 0


/-- C6: in dry-run mode every POST/PUT/DELETE call makes no network request
(0 attempts) and returns the synthetic success envelope — result only for
DELETE, result/item/items for the others — and every payload field whose
name contains "token" (case-insensitively) is absent from the logged
payload fields. -/
theorem c6_dry_run_short_circuit :
    (∀ (method : String) (payload : List (String × JsonVal))
        (server : Nat → AttemptResult) (mr : Nat),
      (method = "POST" ∨ method = "PUT" ∨ method = "DELETE") →
      request true method payload server mr =
        ⟨.value (dryRunEnvelope method), 0, 0⟩) ∧
    dryRunEnvelope "DELETE" = .obj [("result", .bool true)] ∧
    (∀ method : String, method ≠ "DELETE" →
      dryRunEnvelope method =
        .obj [("result", .bool true),
              ("item", .obj [("_id", .num 0), ("title", .str "Dry Run Item"),
                             ("link", .str "http://dryrun.com")]),
              ("items", .arr [])]) ∧
    (∀ (payload : List (String × JsonVal)) (k : String),
      containsToken k = true → k ∉ dryRunLoggedFields payload) := by
  refine ⟨?_, rfl, ?_, ?_⟩
  · intro method payload server mr h
    rcases h with rfl | rfl | rfl <;> rfl
  · intro method h
    simp [dryRunEnvelope, h]
  · intro payload k hk
    simp only [dryRunLoggedFields, filteredPayload, List.mem_map]
    rintro ⟨⟨k2, v⟩, hmem, rfl⟩
    rw [List.mem_filter] at hmem
    simp [hk] at hmem

/-- Witness for C6: a dry-run POST with an `apiToken` in the payload. -/
theorem c6_dry_run_short_circuit_witness :
    request true "POST" payloadWithToken serverUnused 3 =
      ⟨.value (dryRunEnvelope "POST"), 0, 0⟩ ∧
    "apiToken" ∉ dryRunLoggedFields payloadWithToken :=
  ⟨c6_dry_run_short_circuit.1 "POST" payloadWithToken serverUnused 3 (Or.inl rfl),
   c6_dry_run_short_circuit.2.2.2 payloadWithToken "apiToken" (by rfl)⟩

/-- C7: search pages with fixed size 50 from page 0, accumulating items and
stopping exactly at the first page shorter than 50; any server whose pages
have sizes [50, 50, 3] (of valid raindrops) produces exactly 103 items in
3 requests, for any fuel covering at least the 3 iterations. -/
theorem c7_search_pagination :
    ∀ (server : Nat → JsonVal) (fuel : Nat)
      (xs0 xs1 xs2 : List JsonVal) (rs0 rs1 rs2 : List Raindrop),
      3 ≤ fuel →
      pyDictGet (server 0) "items" (.arr []) = .ok (.arr xs0) →
      xs0.length = 50 → xs0.mapM Raindrop.model_validate = .ok rs0 →
      pyDictGet (server 1) "items" (.arr []) = .ok (.arr xs1) →
      xs1.length = 50 → xs1.mapM Raindrop.model_validate = .ok rs1 →
      pyDictGet (server 2) "items" (.arr []) = .ok (.arr xs2) →
      xs2.length = 3 → xs2.mapM Raindrop.model_validate = .ok rs2 →
      search server fuel = .ok (rs0 ++ rs1 ++ rs2, 3) ∧
        (rs0 ++ rs1 ++ rs2).length = 103 := by
  intro server fuel xs0 xs1 xs2 rs0 rs1 rs2 hf h0 hl0 hv0 h1 hl1 hv1 h2 hl2 hv2
  have hrs0 := mapM_except_length Raindrop.model_validate xs0 rs0 hv0
  have hrs1 := mapM_except_length Raindrop.model_validate xs1 rs1 hv1
  have hrs2 := mapM_except_length Raindrop.model_validate xs2 rs2 hv2
  constructor
  · obtain ⟨k, rfl⟩ : ∃ k, fuel = k + 3 := ⟨fuel - 3, by omega⟩
    have e0 : xs0.isEmpty = false := by
      cases xs0 with
      | nil => simp at hl0
      | cons a l => rfl
    have e1 : xs1.isEmpty = false := by
      cases xs1 with
      | nil => simp at hl1
      | cons a l => rfl
    have e2 : xs2.isEmpty = false := by
      cases xs2 with
      | nil => simp at hl2
      | cons a l => rfl
    show searchLoop server (k + 3) 0 [] 0 = .ok (rs0 ++ rs1 ++ rs2, 3)
    have step1 : k + 3 = (k + 2) + 1 := rfl
    rw [step1]
    simp only [searchLoop, h0, h1, h2, e0, e1, e2, hl0, hl1, hl2, hv0, hv1, hv2]
    norm_num
  · simp [hrs0, hrs1, hrs2, hl0, hl1, hl2]


/-- Witness for C7 at a concrete [50, 50, 3] server with fuel 3. -/
theorem c7_search_pagination_witness :
    search c7server 3 =
      .ok (List.replicate 50 sampleRaindrop ++ List.replicate 50 sampleRaindrop ++
            List.replicate 3 sampleRaindrop, 3) ∧
    (List.replicate 50 sampleRaindrop ++ List.replicate 50 sampleRaindrop ++
      List.replicate 3 sampleRaindrop).length = 103 :=
  c7_search_pagination c7server 3
    (List.replicate 50 sampleItem) (List.replicate 50 sampleItem)
    (List.replicate 3 sampleItem)
    (List.replicate 50 sampleRaindrop) (List.replicate 50 sampleRaindrop)
    (List.replicate 3 sampleRaindrop)
    (by norm_num) rfl (by simp) rfl rfl (by simp) rfl rfl (by simp) rfl

/-- C8: `update_raindrop`'s outgoing payload
(`update.model_dump(exclude_none=True)`) contains a field only when the
caller set it — never a null for an unset field — and with only `title` set
the payload is exactly the one-key `title` object. -/
theorem c8_partial_update_payload :
    (∀ (u : RaindropUpdate) (k : String) (v : JsonVal),
      (k, v) ∈ u.model_dump_exclude_none →
      v ≠ JsonVal.null ∧ u.fieldSet k) ∧
    (∀ t : String,
      RaindropUpdate.model_dump_exclude_none
          ⟨none, some t, none, none, none, none, none⟩ =
        [("title", .str t)]) := by
  constructor
  · intro u k v h
    obtain ⟨l, ti, ex, no, tg, ci, co⟩ := u
    simp only [RaindropUpdate.model_dump_exclude_none, List.mem_append] at h
    rcases h with ((((((h | h) | h) | h) | h) | h) | h)
    · cases l <;> simp_all [RaindropUpdate.fieldSet]
    · cases ti <;> simp_all [RaindropUpdate.fieldSet]
    · cases ex <;> simp_all [RaindropUpdate.fieldSet]
    · cases no <;> simp_all [RaindropUpdate.fieldSet]
    · cases tg <;> simp_all [RaindropUpdate.fieldSet]
    · cases ci <;> simp_all [RaindropUpdate.fieldSet]
    · cases co <;> simp_all [RaindropUpdate.fieldSet]
  · intro t
    rfl

/-- Witness for C8: the title-only update. -/
theorem c8_partial_update_payload_witness :
    (JsonVal.str "T" ≠ JsonVal.null ∧
      RaindropUpdate.fieldSet ⟨none, some "T", none, none, none, none, none⟩
        "title") ∧
    RaindropUpdate.model_dump_exclude_none
        ⟨none, some "T", none, none, none, none, none⟩ =
      [("title", .str "T")] :=
  ⟨c8_partial_update_payload.1 ⟨none, some "T", none, none, none, none, none⟩
      "title" (.str "T") (by simp [RaindropUpdate.model_dump_exclude_none]),
   c8_partial_update_payload.2 "T"⟩


/-- C9: `check_wayback` never raises — it is total — and returns the nested
snapshot `url` exactly when the 200 response carries one, and Python `None`
in every other case (non-200 status, undecodable body, non-dict nesting, or
an exception during the call). -/
theorem c9_check_wayback_total :
    (∀ (c : WaybackCall) (v : JsonVal), returnsSnapshot c v → check_wayback c = v) ∧
    (∀ c : WaybackCall, (∀ v, ¬ returnsSnapshot c v) → check_wayback c = .null) := by
  constructor
  · rintro c v ⟨r, fields, sf, cf, rfl, hst, hj, hsf, hcf, rfl⟩
    simp [check_wayback, hst, hj, hsf, hcf]
  · intro c h
    cases c with
    | exception m => rfl
    | response r =>
      simp only [check_wayback]
      by_cases hst : r.status = 200
      · rw [if_pos hst]
        cases hj : r.json with
        | error e => simp
        | ok d =>
          cases d with
          | obj fields =>
            cases hsf : (jsonLookup fields "archived_snapshots").getD (.obj []) with
            | obj sf =>
              cases hcf : (jsonLookup sf "closest").getD (.obj []) with
              | obj cf =>
                exact absurd ⟨r, fields, sf, cf, rfl, hst, hj, hsf, hcf, rfl⟩
                  (h ((jsonLookup cf "url").getD .null))
              | null => simp [hsf, hcf]
              | bool b => simp [hsf, hcf]
              | num n => simp [hsf, hcf]
              | str s => simp [hsf, hcf]
              | arr xs => simp [hsf, hcf]
            | null => simp [hsf]
            | bool b => simp [hsf]
            | num n => simp [hsf]
            | str s => simp [hsf]
            | arr xs => simp [hsf]
          | null => simp
          | bool b => simp
          | num n => simp
          | str s => simp
          | arr xs => simp
      · rw [if_neg hst]


/-- Witness for C9: a hit returns its snapshot url, a 500 returns `None`. -/
theorem c9_check_wayback_total_witness :
    check_wayback waybackHit = .str "http://archive.org/web/2023/http://a" ∧
    check_wayback wayback500 = .null :=
  ⟨c9_check_wayback_total.1 waybackHit _ ⟨_, _, _, _, rfl, rfl, rfl, rfl, rfl, rfl⟩,
   c9_check_wayback_total.2 wayback500 (by
      rintro v ⟨r, fields, sf, cf, hc, hst, h3⟩
      rw [show r = (⟨500, none, "", .error "Expecting value"⟩ : HttpResponse)
        from (WaybackCall.response.injEq _ _).mp hc.symm] at hst
      simp at hst)⟩

/-- C10: on a successful envelope with no `result` key the two delete
operations disagree: `delete_collection` projects `False`,
`delete_collections` projects `True`. -/
theorem c10_delete_result_defaults :
    ∀ fields : List (String × JsonVal),
      jsonLookup fields "result" = none →
      delete_collection_result (.obj fields) = .ok (.bool false) ∧
      delete_collections_result (.obj fields) = .ok (.bool true) := by
  intro fields h
  constructor <;>
    simp [delete_collection_result, delete_collections_result, pyDictGet, h]

/-- Witness for C10: the empty envelope. -/
theorem c10_delete_result_defaults_witness :
    delete_collection_result (.obj []) = .ok (.bool false) ∧
    delete_collections_result (.obj []) = .ok (.bool true) :=
  c10_delete_result_defaults [] rfl

end Raindrip
